import Mathlib

set_option maxHeartbeats 1600000

/-
Shallow embedding of the PyHeapDumper repository (heap_dumper.py).

The embedding models Python exceptions explicitly: every reflective
primitive returns in the exception monad Except Exc, and the try/except
blocks of the source are translated as explicit handlers.  Exact instances
of the built-in types the dumper dispatches on are explicit constructors of
PyVal; every other object (instances of arbitrary classes, subclasses of
the built-ins, modules, functions, code objects, adversarial objects) is a
PyVal.obj carrying one oracle per reflective primitive the dumper may
perform on it.
-/

namespace PyHeapDumper

/-- Python exception values. The constructor exc models exceptions that are
instances of Exception; baseOnly models exceptions that are instances of
BaseException but not of Exception, such as SystemExit and
KeyboardInterrupt.  A Python except Exception clause catches only exc,
while except BaseException catches both. -/
inductive Exc where
  | exc (msg : String)
  | baseOnly (msg : String)
deriving DecidableEq

/-- A Python try/except BaseException block in the exception monad: any
raised exception is handed to the handler. -/
def pyTry {α : Type} (x : Except Exc α) (handler : Exc → Except Exc α) : Except Exc α :=
  match x with
  | .ok a => .ok a
  | .error e => handler e

/-- The class tuples that appear as second argument of isinstance calls in
heap_dumper.py: (bool, int), float, str, (bytes, memoryview),
(Decimal, Fraction, complex), range, types.FunctionType,
(types.FunctionType, types.MethodType), type, (type, types.ModuleType). -/
inductive TyTag where
  | boolInt
  | floatT
  | strT
  | bytesT
  | numericT
  | rangeT
  | functionT
  | funcOrMethod
  | typeT
  | typeOrModule
deriving DecidableEq

/-- An exact Python float, abstracted to the three observations the dumper
makes of it: math.isfinite, truthiness, and str. -/
structure PyFloat where
  isFinite : Bool
  nonzero : Bool
  repr1 : String
deriving DecidableEq

mutual
/-- A Python value as observed by heap_dumper.py.  Exact instances of the
built-in types dispatched on by HeapDumper.__convert_value are explicit
constructors; every other object is obj with a behaviour oracle.  The
payload of bytes is the pair (str of its type, str of its first-1000-bytes
slice), the only observations the dumper makes of a bytes or memoryview
value; likewise numeric carries (str of type, str of the value) for
Decimal, Fraction and complex values. -/
inductive PyVal : Type where
  | none : PyVal
  | bool (b : Bool) : PyVal
  | int (n : Int) : PyVal
  | float (f : PyFloat) : PyVal
  | str (s : String) : PyVal
  | bytes (tyName : String) (sliceRepr : String) : PyVal
  | numeric (tyName : String) (strRepr : String) : PyVal
  | range (start stop step : Int) : PyVal
  | obj (o : PyObj) : PyVal

/-- Behaviour oracle of a Python object: each field is the outcome of one
reflective primitive on the object, which either returns a result or
raises.  identity is id(o) and refs is gc.get_referents(o); both are
C-level and never raise. -/
inductive PyObj : Type where
  | mk (identity : Nat) (typeStr : Except Exc String) (instcheck : TyTag → Except Exc Bool)
      (isfinite : Except Exc Bool) (sliceOp : Except Exc PyVal) (strOf : Except Exc String)
      (boolOf : Except Exc Bool) (dirOp : Except Exc (List String))
      (attrOp : String → Except Exc PyVal) (sizeOp : Except Exc Nat)
      (refs : List PyVal) : PyObj
end

def PyObj.identity : PyObj → Nat
  | .mk i _ _ _ _ _ _ _ _ _ _ => i

def PyObj.typeStr : PyObj → Except Exc String
  | .mk _ t _ _ _ _ _ _ _ _ _ => t

def PyObj.instcheck : PyObj → TyTag → Except Exc Bool
  | .mk _ _ ic _ _ _ _ _ _ _ _ => ic

def PyObj.isfinite : PyObj → Except Exc Bool
  | .mk _ _ _ fin _ _ _ _ _ _ _ => fin

def PyObj.sliceOp : PyObj → Except Exc PyVal
  | .mk _ _ _ _ sl _ _ _ _ _ _ => sl

def PyObj.strOf : PyObj → Except Exc String
  | .mk _ _ _ _ _ st _ _ _ _ _ => st

def PyObj.boolOf : PyObj → Except Exc Bool
  | .mk _ _ _ _ _ _ b _ _ _ _ => b

def PyObj.dirOp : PyObj → Except Exc (List String)
  | .mk _ _ _ _ _ _ _ d _ _ _ => d

def PyObj.attrOp : PyObj → String → Except Exc PyVal
  | .mk _ _ _ _ _ _ _ _ a _ _ => a

def PyObj.sizeOp : PyObj → Except Exc Nat
  | .mk _ _ _ _ _ _ _ _ _ s _ => s

def PyObj.refs : PyObj → List PyVal
  | .mk _ _ _ _ _ _ _ _ _ _ r => r

/-- The Python test value is None. -/
def isNone : PyVal → Bool
  | .none => true
  | _ => false

/-- id(v).  Only obj values carry a modelled identity; the dumper reads
id only of objects that fail every isinstance dispatch or that sit in the
gc object list, which are obj values in this model. -/
def pyId : PyVal → Nat
  | .obj o => o.identity
  | _ => 0

/-- Structural Python equality used for set membership in this model:
scalars compare by value, obj values compare by identity (the default
object equality).  Custom tricks such as 1 == True or user-defined
equality hooks are not modelled. -/
def pyEq : PyVal → PyVal → Bool
  | .none, .none => true
  | .bool a, .bool b => a == b
  | .int a, .int b => a == b
  | .float a, .float b => a == b
  | .str a, .str b => a == b
  | .bytes t1 a, .bytes t2 b => t1 == t2 && a == b
  | .numeric t1 a, .numeric t2 b => t1 == t2 && a == b
  | .range a1 b1 c1, .range a2 b2 c2 => a1 == a2 && b1 == b2 && c1 == c2
  | .obj o1, .obj o2 => o1.identity == o2.identity
  | _, _ => false

/-- Python slicing of strings counts code points; the first 1000 of them. -/
def strTake1000 (s : String) : String := String.mk (s.data.take 1000)

/-- str.startswith, computed on the character list. -/
def strStartsWith (s pre : String) : Bool := pre.data.isPrefixOf s.data

/-- str.endswith, computed on the character list. -/
def strEndsWith (s suf : String) : Bool := suf.data.reverse.isPrefixOf s.data.reverse

/-- Length of list(range(a, b, c)), as in CPython: ceiling division of the
span by the step, clamped at zero. -/
def rangeLen (a b c : Int) : Nat :=
  if c > 0 then (((b - a) + c - 1) / c).toNat
  else if c < 0 then (((a - b) + (0 - c) - 1) / (0 - c)).toNat
  else 0

/-- The elements of list(range(a, b, c)). -/
def rangeElems (a b c : Int) : List Int :=
  (List.range (rangeLen a b c)).map (fun i => a + c * (Int.ofNat i))

/-- str of a Python list of ints, e.g. [1, 2, 3]. -/
def pyIntListStr (l : List Int) : String :=
  "[" ++ String.intercalate (", ") (l.map toString) ++ "]"

/-- Raw isinstance(v, tag).  Exact built-in instances answer structurally at
C level and never raise; for every other object the result comes from its
oracle, which may lie or raise (CPython consults a user-controllable
attribute when the direct type check fails). -/
def rawIsinstance (v : PyVal) (t : TyTag) : Except Exc Bool :=
  match v with
  | .none => .ok false
  | .bool _ => .ok (t == TyTag.boolInt)
  | .int _ => .ok (t == TyTag.boolInt)
  | .float _ => .ok (t == TyTag.floatT)
  | .str _ => .ok (t == TyTag.strT)
  | .bytes _ _ => .ok (t == TyTag.bytesT)
  | .numeric _ _ => .ok (t == TyTag.numericT)
  | .range _ _ _ => .ok (t == TyTag.rangeT)
  | .obj o => o.instcheck t

/-- Raw getattr(v, a).  The attribute surface of exact built-in scalar
instances is not modelled (the dumper never depends on it); every object
with interesting attributes is an obj value with its own oracle. -/
def rawGetattr (v : PyVal) (a : String) : Except Exc PyVal :=
  match v with
  | .obj o => o.attrOp a
  | _ => .error (.exc ("AttributeError"))

/-- Raw dir(v).  As with rawGetattr, only obj values carry a modelled
attribute listing. -/
def rawDir (v : PyVal) : Except Exc (List String) :=
  match v with
  | .obj o => o.dirOp
  | _ => .ok []

/-- Raw str(v).  Total at C level for the exact built-ins, oracle-driven
(and so possibly raising, via an overridden dunder) for obj values. -/
def rawStr (v : PyVal) : Except Exc String :=
  match v with
  | .none => .ok ("None")
  | .bool b => .ok (if b then ("True") else ("False"))
  | .int n => .ok (toString n)
  | .float f => .ok f.repr1
  | .str s => .ok s
  | .bytes _ r => .ok r
  | .numeric _ r => .ok r
  | .range a b c => .ok ("range(" ++ toString a ++ ", " ++ toString b ++ ", " ++ toString c ++ ")")
  | .obj o => o.strOf

/-- Raw str(type(v)).  For an obj value this calls the metaclass str hook,
which may raise. -/
def rawTypeStr (v : PyVal) : Except Exc String :=
  match v with
  | .none => .ok ("<class \x27NoneType\x27>")
  | .bool _ => .ok ("<class \x27bool\x27>")
  | .int _ => .ok ("<class \x27int\x27>")
  | .float _ => .ok ("<class \x27float\x27>")
  | .str _ => .ok ("<class \x27str\x27>")
  | .bytes t _ => .ok t
  | .numeric t _ => .ok t
  | .range _ _ _ => .ok ("<class \x27range\x27>")
  | .obj o => o.typeStr

/-- Raw math.isfinite(v): total for exact numbers, TypeError for values
that are not numbers, oracle-driven for obj values (a float subclass
answers from its C double, a lying object raises). -/
def rawIsfinite (v : PyVal) : Except Exc Bool :=
  match v with
  | .bool _ => .ok true
  | .int _ => .ok true
  | .float f => .ok f.isFinite
  | .obj o => o.isfinite
  | _ => .error (.exc ("TypeError"))

/-- Raw v[:1000].  For an exact str this is the first 1000 code points; for
an exact bytes value the model identifies the value with its slice (the
slice repr is the only observation made); other built-ins are not
subscriptable; obj values answer from their oracle. -/
def rawSlice1000 (v : PyVal) : Except Exc PyVal :=
  match v with
  | .str s => .ok (.str (strTake1000 s))
  | .bytes t r => .ok (.bytes t r)
  | .obj o => o.sliceOp
  | _ => .error (.exc ("TypeError"))

/-- Raw str(list(v)[:1000]), the observation of the range branch of
__convert_value.  Total for an exact range; for an obj value the slice
oracle stands for the materialized and sliced list and rawStr prints it,
both steps running user code and so possibly raising. -/
def rawListStr1000 (v : PyVal) : Except Exc String :=
  match v with
  | .range a b c => .ok (pyIntListStr ((rangeElems a b c).take 1000))
  | .obj o => o.sliceOp >>= rawStr
  | _ => .error (.exc ("TypeError"))

/-- Raw truthiness bool(v).  For bytes and numeric values the payload does
not determine truthiness; the dumper only ever tests truthiness of
attribute lookup results on class objects, so the constant is irrelevant
to every claim. -/
def rawBool (v : PyVal) : Except Exc Bool :=
  match v with
  | .none => .ok false
  | .bool b => .ok b
  | .int n => .ok (n != 0)
  | .float f => .ok f.nonzero
  | .str s => .ok (s ≠ "")
  | .bytes _ _ => .ok true
  | .numeric _ _ => .ok true
  | .range a b c => .ok (rangeLen a b c != 0)
  | .obj o => o.boolOf

/-- Raw sys.getsizeof(v).  The constants for the exact built-ins stand in
for the runtime estimate; only the obj oracle can raise (getsizeof calls
an overridable dunder). -/
def rawSizeof (v : PyVal) : Except Exc Nat :=
  match v with
  | .none => .ok 16
  | .bool _ => .ok 28
  | .int _ => .ok 28
  | .float _ => .ok 24
  | .str s => .ok (49 + s.length)
  | .bytes _ _ => .ok 33
  | .numeric _ _ => .ok 104
  | .range _ _ _ => .ok 48
  | .obj o => o.sizeOp

/-- Raw gc.get_referents(v): C level, never raises; scalar built-ins hold
no referents. -/
def rawReferents : PyVal → List PyVal
  | .obj o => o.refs
  | _ => []

/-- HeapDumper.__safe_getattr: try return getattr(obj, attr) except
BaseException return None.  A missing result and an attribute whose value
is None collapse to the same outcome, exactly as in the source. -/
def safe_getattr (v : PyVal) (a : String) : PyVal :=
  match rawGetattr v a with
  | .ok r => r
  | .error _ => .none

/-- HeapDumper.__safe_isinstance: try return isinstance(obj, types_)
except BaseException return False. -/
def safe_isinstance (v : PyVal) (t : TyTag) : Bool :=
  match rawIsinstance v t with
  | .ok b => b
  | .error _ => false

/-- HeapDumper.__safe_dir: try return dir(obj) except BaseException
return the empty list. -/
def safe_dir (v : PyVal) : List String :=
  match rawDir v with
  | .ok l => l
  | .error _ => []

/-- The result type of HeapDumper.__convert_value: either a Python value
passed through or produced by a branch, or the final two-element pair
[str(type(value)), id(value)]. -/
inductive ConvOut where
  | val (v : PyVal)
  | pair (tyName : String) (ident : Nat)

/-- HeapDumper.__convert_value, translated branch by branch.  Each source
try/except BaseException block becomes a pyTry; the dispatch uses the safe
isinstance wrapper exactly as the source does.  Note that the handler of
the float branch re-runs str(value) outside any try block, exactly as the
source line 213 does. -/
def convert_valueE (value : PyVal) : Except Exc ConvOut :=
  if isNone value then Except.ok (ConvOut.val PyVal.none)
  else if safe_isinstance value TyTag.boolInt then Except.ok (ConvOut.val value)
  else if safe_isinstance value TyTag.floatT then
    pyTry
      (rawIsfinite value >>= fun fin =>
        if fin then Except.ok (ConvOut.val value)
        else rawStr value >>= fun s => Except.ok (ConvOut.val (PyVal.str s)))
      (fun _ => rawStr value >>= fun s => Except.ok (ConvOut.val (PyVal.str s)))
  else if safe_isinstance value TyTag.strT then
    pyTry (rawSlice1000 value >>= fun v => Except.ok (ConvOut.val v))
      (fun _ => Except.ok (ConvOut.val (PyVal.str ("[STRING_ACCESS_ERROR]"))))
  else if safe_isinstance value TyTag.bytesT then
    pyTry (rawSlice1000 value >>= fun v => rawStr v >>= fun s => Except.ok (ConvOut.val (PyVal.str s)))
      (fun _ => Except.ok (ConvOut.val (PyVal.str ("[BYTES_ACCESS_ERROR]"))))
  else if safe_isinstance value TyTag.numericT then
    pyTry (rawStr value >>= fun s => Except.ok (ConvOut.val (PyVal.str s)))
      (fun _ => Except.ok (ConvOut.val (PyVal.str ("[NUMBER_CONVERT_ERROR]"))))
  else if safe_isinstance value TyTag.rangeT then
    pyTry (rawListStr1000 value >>= fun s => Except.ok (ConvOut.val (PyVal.str s)))
      (fun _ => Except.ok (ConvOut.val (PyVal.str ("[RANGE_CONVERT_ERROR]"))))
  else
    pyTry (rawTypeStr value >>= fun t => Except.ok (ConvOut.pair t (pyId value)))
      (fun _ => Except.ok (ConvOut.pair ("[UNKNOWN_TYPE]") 0))

/-- The process-wide runtime state read by the dumper, injected as a
read-only external dependency: the gc object list, sys.modules, the file
system operations, and the presentation-only strings of the success
message (elapsed seconds and megabyte formatting) together with the
traceback captured by the top-level handler. -/
structure World where
  gcObjects : Except Exc (List PyVal)
  modules : List PyVal
  modulesGet : PyVal → Except Exc PyVal
  makedirs : String → Except Exc Unit
  openW : String → Except Exc Unit
  getsize : String → Except Exc Nat
  formatExc : String
  elapsedStr : String
  fmtMb : Nat → String

/-- Drop the pairs whose value is None, as the dict comprehensions of
HeapDumper.__get_src_info do with their if value is not None filter. -/
def srcFilter (l : List (String × PyVal)) : List (String × PyVal) :=
  l.filter (fun p => !(isNone p.2))

/-- The body of HeapDumper.__get_src_info inside its try block: the three
type-dispatched branches.  Truthiness tests (if init_method, if code, if
cls_module, if module_obj) call the bool hook of the object and may raise,
as may sys.modules.get on an unhashable key; every such raise is caught by
the enclosing handler in get_src_info. -/
def get_src_infoE (w : World) (obj : PyVal) : Except Exc (List (String × PyVal)) :=
  if safe_isinstance obj TyTag.funcOrMethod then
    let code := safe_getattr obj ("__code__")
    Except.ok (srcFilter
      [("co_name", safe_getattr code ("co_name")),
       ("co_filename", safe_getattr code ("co_filename")),
       ("co_lineno", safe_getattr code ("co_firstlineno"))])
  else if safe_isinstance obj TyTag.typeOrModule then
    Except.ok (srcFilter
      [("co_name", safe_getattr obj ("__name__")),
       ("co_filename", safe_getattr obj ("__file__"))])
  else
    let clsObj := safe_getattr obj ("__class__")
    if !(isNone clsObj) then
      rawBool (safe_getattr clsObj ("__init__")) >>= fun initB =>
      let code := if initB then safe_getattr (safe_getattr clsObj ("__init__")) ("__code__") else PyVal.none
      let clsName := safe_getattr clsObj ("__name__")
      let clsModule := safe_getattr clsObj ("__module__")
      rawBool clsModule >>= fun cmB =>
      (if cmB then w.modulesGet clsModule else Except.ok PyVal.none) >>= fun moduleObj =>
      rawBool moduleObj >>= fun moB =>
      let moduleFile := if moB then safe_getattr moduleObj ("__file__") else PyVal.none
      rawBool code >>= fun codeB =>
      Except.ok (srcFilter
        [("co_name", if codeB then safe_getattr code ("co_name") else clsName),
         ("co_filename", if codeB then safe_getattr code ("co_filename") else moduleFile),
         ("co_lineno", if codeB then safe_getattr code ("co_firstlineno") else PyVal.none)])
    else Except.ok []

/-- HeapDumper.__get_src_info: the branches above wrapped in the
try/except BaseException that collapses any failure to the empty dict. -/
def get_src_info (w : World) (obj : PyVal) : List (String × PyVal) :=
  match get_src_infoE w obj with
  | .ok d => d
  | .error _ => []

/-- Insertion into a Python dict rendered as an ordered association list:
first insertion fixes the position, a later insertion with the same key
overwrites the value in place. -/
def pyDictInsert (d : List (String × ConvOut)) (k : String) (v : ConvOut) :
    List (String × ConvOut) :=
  if d.any (fun p => p.1 == k) then d.map (fun p => if p.1 == k then (k, v) else p)
  else d ++ [(k, v)]

/-- The attrs dict comprehension of HeapDumper.__get_object_metadata as a
left-to-right loop: for each name from safe dir, skip names that start and
end with a double underscore, resolve safely, skip a None result, convert
the value (which may raise, aborting the whole comprehension) and bind it. -/
def attrLoop (obj : PyVal) : List String → List (String × ConvOut) →
    Except Exc (List (String × ConvOut))
  | [], acc => Except.ok acc
  | n :: ns, acc =>
    if !(strStartsWith n ("__") && strEndsWith n ("__")) then
      let v := safe_getattr obj n
      if !(isNone v) then
        match convert_valueE v with
        | .ok c => attrLoop obj ns (pyDictInsert acc n c)
        | .error e => .error e
      else attrLoop obj ns acc
    else attrLoop obj ns acc

/-- The attrs comprehension applied to the safe dir listing of the object. -/
def attrsE (obj : PyVal) : Except Exc (List (String × ConvOut)) :=
  attrLoop obj (safe_dir obj) []

/-- The record HeapDumper.__get_object_metadata builds for one object.
size is always present; attr, ref and src are the optional keys. -/
structure ObjectRecord where
  size : Nat
  attr : Option (List (String × ConvOut))
  ref : Option (List ConvOut)
  src : Option (List (String × PyVal))

/-- The attr section of __get_object_metadata: the comprehension inside
try/except BaseException; on a raise the key is simply absent, and an
empty mapping also leaves the key absent. -/
def attrSection (obj : PyVal) : Except Exc (Option (List (String × ConvOut))) :=
  pyTry
    (attrsE obj >>= fun l =>
      Except.ok (if l.isEmpty then Option.none else some l))
    (fun _ => Except.ok Option.none)

/-- The list comprehension converting every referent, left to right; the
first raise aborts the whole comprehension. -/
def convertList : List PyVal → Except Exc (List ConvOut)
  | [] => Except.ok []
  | v :: vs => convert_valueE v >>= fun c => convertList vs >>= fun cs => Except.ok (c :: cs)

/-- The ref section of __get_object_metadata: gc.get_referents, then, when
the list is non-empty, a list comprehension converting every referent; a
raise inside the conversion leaves the key absent. -/
def refSection (obj : PyVal) : Except Exc (Option (List ConvOut)) :=
  pyTry
    (let refs := rawReferents obj
     if refs.isEmpty then Except.ok Option.none
     else convertList refs >>= fun cs => Except.ok (some cs))
    (fun _ => Except.ok Option.none)

/-- HeapDumper.__get_object_metadata: size with fallback 0, the attr
section, the ref section, and the src dict when non-empty. -/
def get_object_metadataE (w : World) (obj : PyVal) : Except Exc ObjectRecord :=
  pyTry (rawSizeof obj) (fun _ => Except.ok 0) >>= fun size =>
  attrSection obj >>= fun attr =>
  refSection obj >>= fun ref =>
  let srcInfo := get_src_info w obj
  Except.ok ⟨size, attr, ref, if srcInfo.isEmpty then Option.none else some srcInfo⟩

/-- The closed form of the record __get_object_metadata produces; the
lemma get_object_metadataE_eq below shows the extractor always succeeds
with exactly this record. -/
def recordOf (w : World) (obj : PyVal) : ObjectRecord :=
  { size := match rawSizeof obj with | .ok n => n | .error _ => 0
  , attr := match attrsE obj with
      | .ok l => if l.isEmpty then Option.none else some l
      | .error _ => Option.none
  , ref := if (rawReferents obj).isEmpty then Option.none
      else match convertList (rawReferents obj) with
        | .ok cs => some cs
        | .error _ => Option.none
  , src := let s := get_src_info w obj
      if s.isEmpty then Option.none else some s }

/-- Insertion into a Python set, rendered as an insertion-ordered list that
never holds two pyEq-equal elements. -/
def setAdd (s : List PyVal) (v : PyVal) : List PyVal :=
  if s.any (fun u => pyEq u v) then s else s ++ [v]

/-- set.update with the elements of a generator, left to right. -/
def setAddAll (s : List PyVal) (l : List PyVal) : List PyVal :=
  l.foldl setAdd s

/-- The first generator of HeapDumper.__get_code_objects: the code objects
of module-level functions.  Both fetches of the attribute go through the
same safe wrapper, as in the source. -/
def moduleFuncCodes (m : PyVal) : List PyVal :=
  (safe_dir m).foldr
    (fun fname acc =>
      let func := safe_getattr m fname
      if safe_isinstance func TyTag.functionT && !(isNone (safe_getattr func ("__code__"))) then
        safe_getattr func ("__code__") :: acc
      else acc) []

/-- The second generator of HeapDumper.__get_code_objects: the code
objects of functions and bound methods found on classes visible on the
module. -/
def classMethodCodes (m : PyVal) : List PyVal :=
  (safe_dir m).foldr
    (fun clsName acc =>
      let clsAttr := safe_getattr m clsName
      if safe_isinstance clsAttr TyTag.typeT then
        ((safe_dir clsAttr).foldr
          (fun attrName acc2 =>
            let method := safe_getattr clsAttr attrName
            if safe_isinstance method TyTag.funcOrMethod &&
                !(isNone (safe_getattr method ("__code__"))) then
              safe_getattr method ("__code__") :: acc2
            else acc2) []) ++ acc
      else acc) []

/-- HeapDumper.__get_code_objects: iterate sys.modules.values(), skip None
entries, update the set with both generators per module, and finally
discard None. -/
def get_code_objects (w : World) : List PyVal :=
  let s := w.modules.foldl
    (fun acc m =>
      if isNone m then acc
      else setAddAll (setAddAll acc (moduleFuncCodes m)) (classMethodCodes m)) []
  s.filter (fun v => !(pyEq v PyVal.none))

/-- The object collection collect_heap_metadata feeds to extraction:
objects = gc.get_objects(); objects.extend(cls.__get_code_objects()). -/
def enumerateObjects (w : World) : Except Exc (List PyVal) :=
  w.gcObjects >>= fun objs => Except.ok (objs ++ get_code_objects w)

/-- The nested snapshot mapping: type name, then object identity, then the
per-object record. -/
abbrev Snapshot := List (String × List (Nat × ObjectRecord))

/-- The inner dict assignment metadata_dict[ty][i] = r. -/
def snapInsertInner (l : List (Nat × ObjectRecord)) (i : Nat) (r : ObjectRecord) :
    List (Nat × ObjectRecord) :=
  if l.any (fun p => p.1 == i) then l.map (fun p => if p.1 == i then (i, r) else p)
  else l ++ [(i, r)]

/-- metadata_dict.setdefault(ty, dict())[i] = r. -/
def snapInsert (s : Snapshot) (ty : String) (i : Nat) (r : ObjectRecord) : Snapshot :=
  if s.any (fun p => p.1 == ty) then
    s.map (fun p => if p.1 == ty then (p.1, snapInsertInner p.2 i r) else p)
  else s ++ [(ty, snapInsertInner [] i r)]

/-- The metadata loop of collect_heap_metadata: for every object, key the
record under str(type(obj)) and id(obj).  str(type(obj)) is the one
reflective call of the loop that is not wrapped in any safe helper, so a
raise here aborts the loop. -/
def buildSnapshot (w : World) (objs : List PyVal) : Except Exc Snapshot :=
  objs.foldlM
    (fun acc obj =>
      rawTypeStr obj >>= fun ty =>
      get_object_metadataE w obj >>= fun md =>
      Except.ok (snapInsert acc ty (pyId obj) md)) []

/-- posixpath.dirname: the prefix up to the last slash, with trailing
slashes stripped unless the prefix consists only of slashes. -/
def osPathDirname (p : String) : String :=
  let cs := p.data
  let i := match cs.reverse.findIdx? (fun c => c == '/') with
    | some j => cs.length - j
    | Option.none => 0
  let head := cs.take i
  if !head.isEmpty && head.any (fun c => c ≠ '/') then
    String.mk ((head.reverse.dropWhile (fun c => c == '/')).reverse)
  else String.mk head

/-- The extension normalization of __save_heap_dump: append .json when the
name does not already end with it. -/
def withJsonExt (fn : String) : String :=
  if strEndsWith fn (".json") then fn else fn ++ ".json"

/-- A lowercase hexadecimal digit. -/
def hexDigitChar : Nat → Char
  | 0 => '0'
  | 1 => '1'
  | 2 => '2'
  | 3 => '3'
  | 4 => '4'
  | 5 => '5'
  | 6 => '6'
  | 7 => '7'
  | 8 => '8'
  | 9 => '9'
  | 10 => 'a'
  | 11 => 'b'
  | 12 => 'c'
  | 13 => 'd'
  | 14 => 'e'
  | 15 => 'f'
  | _ => '0'

/-- JSON string escaping as json.dumps performs it with ensure_ascii set
to False: the quote, the backslash and control characters are escaped,
every other character, in particular every non-ASCII character, is written
verbatim. -/
def jsonEscapeChar (c : Char) : List Char :=
  if c = '"' then ['\\', '"']
  else if c = '\\' then ['\\', '\\']
  else if c = '\n' then ['\\', 'n']
  else if c = '\t' then ['\\', 't']
  else if c = '\r' then ['\\', 'r']
  else if c.toNat < 32 then
    ['\\', 'u', '0', '0', hexDigitChar (c.toNat / 16), hexDigitChar (c.toNat % 16)]
  else [c]

/-- Escape a whole string for JSON output. -/
def jsonEscape (s : String) : String :=
  String.mk (s.data.foldr (fun c acc => jsonEscapeChar c ++ acc) [])

/-- A JSON string literal. -/
def jsonStr (s : String) : String := "\"" ++ jsonEscape s ++ "\""

/-- json.dumps of one Python value: null, booleans, ints, floats and
strings serialize; bytes, Decimal, Fraction, complex, range values and
arbitrary objects raise TypeError, as json.dumps does for types without a
default encoder. -/
def jsonOfPyVal (v : PyVal) : Except Exc String :=
  match v with
  | .none => .ok ("null")
  | .bool b => .ok (if b then ("true") else ("false"))
  | .int n => .ok (toString n)
  | .float f => .ok f.repr1
  | .str s => .ok (jsonStr s)
  | _ => .error (.exc ("TypeError"))

/-- json.dumps of one normalized value: the two-element pair serializes as
a JSON array. -/
def jsonOfConvOut (c : ConvOut) : Except Exc String :=
  match c with
  | .val v => jsonOfPyVal v
  | .pair t i => .ok ("[" ++ jsonStr t ++ ", " ++ toString i ++ "]")

/-- Render a JSON object from already-rendered entries, with the compact
default separators of json.dumps. -/
def jsonObject (entries : List String) : String :=
  "\x7b" ++ String.intercalate (", ") entries ++ "\x7d"

/-- json.dumps of one ObjectRecord, keys in insertion order. -/
def jsonOfRecord (r : ObjectRecord) : Except Exc String :=
  let sizeEntry := jsonStr ("size") ++ ": " ++ toString r.size
  (match r.attr with
    | Option.none => Except.ok ([] : List String)
    | some l =>
      l.mapM (fun p => jsonOfConvOut p.2 >>= fun v => Except.ok (jsonStr p.1 ++ ": " ++ v)) >>=
        fun es => Except.ok [jsonStr ("attr") ++ ": " ++ jsonObject es]) >>= fun attrPart =>
  (match r.ref with
    | Option.none => Except.ok ([] : List String)
    | some l =>
      l.mapM jsonOfConvOut >>= fun es =>
        Except.ok [jsonStr ("ref") ++ ": " ++ "[" ++ String.intercalate (", ") es ++ "]"]) >>=
    fun refPart =>
  (match r.src with
    | Option.none => Except.ok ([] : List String)
    | some l =>
      l.mapM (fun p => jsonOfPyVal p.2 >>= fun v => Except.ok (jsonStr p.1 ++ ": " ++ v)) >>=
        fun es => Except.ok [jsonStr ("src") ++ ": " ++ jsonObject es]) >>= fun srcPart =>
  Except.ok (jsonObject (sizeEntry :: (attrPart ++ refPart ++ srcPart)))

/-- json.dumps of the whole snapshot; integer identity keys become JSON
string keys, as json.dumps converts int dict keys to strings. -/
def jsonOfSnapshot (s : Snapshot) : Except Exc String :=
  s.mapM
      (fun p =>
        p.2.mapM (fun q => jsonOfRecord q.2 >>= fun r =>
            Except.ok (jsonStr (toString q.1) ++ ": " ++ r)) >>= fun inner =>
        Except.ok (jsonStr p.1 ++ ": " ++ jsonObject inner)) >>= fun outer =>
  Except.ok (jsonObject outer)

/-- The file-system effects and the returned path of one call of
HeapDumper.__save_heap_dump. -/
structure SaveResult where
  dirsMade : Option String
  written : String × String
  returned : String

/-- HeapDumper.__save_heap_dump: derive the directory name from the
supplied path and create it (with ancestors, exist_ok) when non-empty;
append the .json extension when missing; open the file and write the
serialization produced with ensure_ascii set to False; return the final
name.  No failure is swallowed here. -/
def save_heap_dump (w : World) (file_name : String) (snap : Snapshot) :
    Except Exc SaveResult :=
  let dirName := osPathDirname file_name
  (if dirName = "" then Except.ok Option.none
   else w.makedirs dirName >>= fun _ => Except.ok (some dirName)) >>= fun dirsMade =>
  let fn := withJsonExt file_name
  w.openW fn >>= fun _ =>
  jsonOfSnapshot snap >>= fun content =>
  Except.ok ⟨dirsMade, (fn, content), fn⟩

/-- The enriched message of the top-level except clause of
collect_heap_metadata: the original cause followed by the captured
traceback. -/
def enrichedMsg (fn cause tb : String) : String :=
  "Failed to save heap dump \"" ++ fn ++ "\": " ++ cause ++ "\n" ++ tb

/-- The try block of collect_heap_metadata.  Errors are paired with the
binding of file_name in scope at the raise site, because the source
rebinds file_name to the value returned by __save_heap_dump before
calling os.path.getsize, and the except clause formats whichever binding
is current. -/
def collectBody (w : World) (file_name : String) : Except (Exc × String) String :=
  (match enumerateObjects w with
    | .ok objs => Except.ok objs
    | .error e => Except.error (e, file_name)) >>= fun objs =>
  (match buildSnapshot w objs with
    | .ok s => Except.ok s
    | .error e => Except.error (e, file_name)) >>= fun snap =>
  (match save_heap_dump w file_name snap with
    | .ok r => Except.ok r
    | .error e => Except.error (e, file_name)) >>= fun saved =>
  let fn := saved.returned
  (match w.getsize fn with
    | .ok n => Except.ok n
    | .error e => Except.error (e, fn)) >>= fun size =>
  Except.ok ("Heap dump \"" ++ fn ++ "\" saved in " ++ w.elapsedStr ++
    " seconds. JSON size: " ++ w.fmtMb size ++ "MB")

/-- HeapDumper.collect_heap_metadata: the body inside try, and the
except Exception clause that re-raises a single Exception enriched with
the original cause and the formatted traceback.  An exception that is not
an instance of Exception is not caught and propagates unchanged. -/
def collect_heap_metadata (w : World) (file_name : String) : Except Exc String :=
  match collectBody w file_name with
  | .ok s => .ok s
  | .error (Exc.exc m, fn) => .error (.exc (enrichedMsg fn m w.formatExc))
  | .error (Exc.baseOnly m, _) => .error (.baseOnly m)

/-- The inner loop of the attrs comprehension as the specification words
it: enumerate all attribute names, exclude the structurally reserved
dunder names, resolve each safely, keep the names whose resolved value is
not null, and run every kept value through the value normalizer. -/
def attrSpecLoop (obj : PyVal) : List String → List (String × ConvOut) →
    Except Exc (List (String × ConvOut))
  | [], acc => Except.ok acc
  | n :: ns, acc =>
    match convert_valueE (safe_getattr obj n) with
    | .ok c => attrSpecLoop obj ns (pyDictInsert acc n c)
    | .error e => .error e

/-- The attribute mapping described by the specification, with the two
name filters — drop the reserved dunder names, drop the names whose safe
resolution is null — applied up front. -/
def attrMappingSpec (obj : PyVal) : Except Exc (List (String × ConvOut)) :=
  attrSpecLoop obj
    ((safe_dir obj).filter
      (fun n => !(strStartsWith n ("__") && strEndsWith n ("__")) &&
        !(isNone (safe_getattr obj n)))) []

/-- The list of attribute keys of a record, when the attr key is present. -/
def attrKeys (r : ObjectRecord) : Option (List String) :=
  r.attr.map (List.map Prod.fst)

/-- A SystemExit exception: an instance of BaseException that is not an
instance of Exception. -/
def sysExit : Exc := .baseOnly ("SystemExit")

/-- A RuntimeError: an ordinary Exception instance. -/
def runtimeErr : Exc := .exc ("RuntimeError")

/-- An object on which every reflective primitive raises SystemExit. -/
def exRaisingObj : PyObj :=
  .mk 1 (.error sysExit) (fun _ => .error sysExit) (.error sysExit) (.error sysExit)
    (.error sysExit) (.error sysExit) (.error sysExit) (fun _ => .error sysExit)
    (.error sysExit) []

/-- An instance of a float subclass holding a non-finite value whose
overridden str hook raises: isinstance against float answers True because
the class derives from float, math.isfinite reads the C double and
answers False, and str runs the overridden hook, which raises
RuntimeError.  In Python: class F(float) with a raising double-underscore
str method, instantiated as F(float(\x27nan\x27)). -/
def badFloatObj : PyObj :=
  .mk 2 (.ok ("<class \x27F\x27>")) (fun t => .ok (t == TyTag.floatT)) (.ok false)
    (.error runtimeErr) (.error runtimeErr) (.ok true) (.ok [])
    (fun _ => .error (.exc ("AttributeError"))) (.ok 24) []

/-- An instance of a class whose metaclass str hook raises SystemExit, so
that str(type(obj)) in the metadata loop raises an exception that is not
an instance of Exception. -/
def evilTypeStrObj : PyObj :=
  .mk 3 (.error sysExit) (fun _ => .ok false) (.ok true) (.ok PyVal.none)
    (.ok ("evil")) (.ok true) (.ok []) (fun _ => .error (.exc ("AttributeError")))
    (.ok 32) []

/-- A world whose file system and module table are inert: every operation
succeeds trivially and the gc object list is empty. -/
def wSimple : World :=
  ⟨Except.ok [], [], fun _ => Except.ok PyVal.none, fun _ => Except.ok (),
   fun _ => Except.ok (), fun _ => Except.ok 0, "tb", "0.10", fun _ => "0.00"⟩

/-- A world whose gc object list holds the object with the raising
metaclass str hook. -/
def wC2 : World :=
  ⟨Except.ok [PyVal.obj evilTypeStrObj], [], fun _ => Except.ok PyVal.none,
   fun _ => Except.ok (), fun _ => Except.ok (), fun _ => Except.ok 0, "tb", "0.10",
   fun _ => "0.00"⟩

/-- A world in which opening the output file raises OSError. -/
def wOsError : World :=
  ⟨Except.ok [], [], fun _ => Except.ok PyVal.none, fun _ => Except.ok (),
   fun _ => Except.error (.exc ("OSError")), fun _ => Except.ok 0, "tb", "0.10",
   fun _ => "0.00"⟩

/-- An object with a given identity and type string on which every other
interesting reflective operation fails; it stands for values the dumper
only renders through the final [type, id] branch, such as tuples and code
objects viewed from outside. -/
def mkOpaque (ident : Nat) (ty : String) : PyObj :=
  .mk ident (.ok ty) (fun _ => .ok false) (.error (.exc ("TypeError")))
    (.error (.exc ("TypeError"))) (.error (.exc ("TypeError"))) (.ok true)
    (.ok []) (fun _ => .error (.exc ("AttributeError"))) (.ok 56) []

/-- The code object of the module function of the duplication scenario:
it is both gc-tracked (so the runtime object list holds it) and reachable
through the module scan. -/
def exCodeVal : PyVal := PyVal.obj (mkOpaque 77 ("<class \x27code\x27>"))

/-- A module-level function whose code object is exCodeVal. -/
def exFuncObj : PyObj :=
  .mk 78 (.ok ("<class \x27function\x27>"))
    (fun t => .ok (t == TyTag.functionT || t == TyTag.funcOrMethod))
    (.error (.exc ("TypeError"))) (.error (.exc ("TypeError"))) (.ok ("<function f>"))
    (.ok true) (.ok [])
    (fun a => if a == "__code__" then .ok exCodeVal else .error (.exc ("AttributeError")))
    (.ok 136) []

/-- A loaded module exposing the single name f, bound to exFuncObj. -/
def exModuleObj : PyObj :=
  .mk 79 (.ok ("<class \x27module\x27>")) (fun t => .ok (t == TyTag.typeOrModule))
    (.error (.exc ("TypeError"))) (.error (.exc ("TypeError"))) (.ok ("<module m>"))
    (.ok true) (.ok (["f"]))
    (fun a => if a == "f" then .ok (PyVal.obj exFuncObj) else .error (.exc ("AttributeError")))
    (.ok 72) []

/-- A world in which the gc object list already holds the code object that
the module scan recovers as well. -/
def w3 : World :=
  ⟨Except.ok [exCodeVal], [PyVal.obj exModuleObj], fun _ => Except.ok PyVal.none,
   fun _ => Except.ok (), fun _ => Except.ok (), fun _ => Except.ok 0, "tb", "0.10",
   fun _ => "0.00"⟩

/-- A plain instance with two ordinary attributes and one dunder name. -/
def exPlainObj : PyObj :=
  .mk 601 (.ok ("<class \x27Demo\x27>")) (fun _ => .ok false) (.error (.exc ("TypeError")))
    (.error (.exc ("TypeError"))) (.ok ("<Demo>")) (.ok true)
    (.ok (["__class__", "name", "x"]))
    (fun a => if a == "name" then .ok (PyVal.str ("demo"))
      else if a == "x" then .ok (PyVal.int 5)
      else .error (.exc ("AttributeError")))
    (.ok 48) []

/-- An object whose sizeof hook raises. -/
def exSizeRaisingObj : PyObj :=
  .mk 602 (.ok ("<class \x27Huge\x27>")) (fun _ => .ok false) (.error (.exc ("TypeError")))
    (.error (.exc ("TypeError"))) (.ok ("<Huge>")) (.ok true) (.ok [])
    (fun _ => .error (.exc ("AttributeError"))) (.error (.exc ("TypeError"))) []

/-- A tuple value, observed only through the final conversion branch. -/
def tupleVal (i : Nat) : PyVal := PyVal.obj (mkOpaque i ("<class \x27tuple\x27>"))

/-- The slot wrapper object.init of the code type: it is truthy and has no
code attribute. -/
def slotWrapperObj : PyObj := mkOpaque 505 ("<class \x27wrapper_descriptor\x27>")

/-- The class object of the code type, as the generic src branch reads
it: init resolves to the slot wrapper, name to code, module to builtins. -/
def codeClassObj : PyObj :=
  .mk 506 (.ok ("<class \x27type\x27>"))
    (fun t => .ok (t == TyTag.typeT || t == TyTag.typeOrModule))
    (.error (.exc ("TypeError"))) (.error (.exc ("TypeError"))) (.ok ("<class code>"))
    (.ok true) (.ok [])
    (fun a => if a == "__init__" then .ok (PyVal.obj slotWrapperObj)
      else if a == "__name__" then .ok (PyVal.str ("code"))
      else if a == "__module__" then .ok (PyVal.str ("builtins"))
      else .error (.exc ("AttributeError")))
    (.ok 408) []

/-- The attribute table of a concrete CPython code object: the co_ fields,
the replace method, and the class dunder. -/
def exampleCodeAttr (a : String) : Except Exc PyVal :=
  if a == "co_argcount" then .ok (PyVal.int 0)
  else if a == "co_code" then .ok (PyVal.bytes ("<class \x27bytes\x27>") ("b\x27d\x27"))
  else if a == "co_consts" then .ok (tupleVal 501)
  else if a == "co_filename" then .ok (PyVal.str ("example.py"))
  else if a == "co_firstlineno" then .ok (PyVal.int 13)
  else if a == "co_flags" then .ok (PyVal.int 67)
  else if a == "co_name" then .ok (PyVal.str ("do_some_work"))
  else if a == "co_names" then .ok (tupleVal 502)
  else if a == "co_nlocals" then .ok (PyVal.int 2)
  else if a == "co_stacksize" then .ok (PyVal.int 3)
  else if a == "co_varnames" then .ok (tupleVal 503)
  else if a == "replace" then
    .ok (PyVal.obj (mkOpaque 504 ("<class \x27builtin_function_or_method\x27>")))
  else if a == "__class__" then .ok (PyVal.obj codeClassObj)
  else .error (.exc ("AttributeError"))

/-- A concrete CPython code object as the dumper observes it: the sorted
dir listing holds a dunder name, the co_ fields and replace; the object
has no instance dict and belongs to none of the dispatched types. -/
def exampleCodeObject : PyObj :=
  .mk 507 (.ok ("<class \x27code\x27>")) (fun _ => .ok false) (.error (.exc ("TypeError")))
    (.error (.exc ("TypeError"))) (.ok ("<code object>")) (.ok true)
    (.ok (["__class__", "co_argcount", "co_code", "co_consts", "co_filename",
      "co_firstlineno", "co_flags", "co_name", "co_names", "co_nlocals",
      "co_stacksize", "co_varnames", "replace"]))
    exampleCodeAttr (.ok 120) []

/-- The keys of the fixed three-field record described by claim C7. -/
def threeFieldKeys : List String := ["co_name", "co_filename", "co_lineno"]

/-- The code object attached to the witness function below. -/
def exCodeForFunc : PyObj :=
  .mk 88 (.ok ("<class \x27code\x27>")) (fun _ => .ok false) (.error (.exc ("TypeError")))
    (.error (.exc ("TypeError"))) (.ok ("<code object f>")) (.ok true) (.ok [])
    (fun a => if a == "co_name" then .ok (PyVal.str ("f"))
      else if a == "co_filename" then .ok (PyVal.str ("m.py"))
      else if a == "co_firstlineno" then .ok (PyVal.int 3)
      else .error (.exc ("AttributeError")))
    (.ok 120) []

/-- A function object carrying exCodeForFunc as its code attribute. -/
def exWitFuncObj : PyObj :=
  .mk 89 (.ok ("<class \x27function\x27>"))
    (fun t => .ok (t == TyTag.functionT || t == TyTag.funcOrMethod))
    (.error (.exc ("TypeError"))) (.error (.exc ("TypeError"))) (.ok ("<function f>"))
    (.ok true) (.ok [])
    (fun a => if a == "__code__" then .ok (PyVal.obj exCodeForFunc)
      else .error (.exc ("AttributeError")))
    (.ok 136) []

/-- The property claim C2 asserts of the entry point, stated from the
claim words: for every destination path, when the run does not return
normally it fails with the single enriched error built by the top-level
handler, whose message carries the original cause and the captured stack
trace. -/
def c2ClaimHolds (w : World) (fn : String) : Prop :=
  (∃ s, collect_heap_metadata w fn = Except.ok s) ∨
  (∃ f0 cause,
    collect_heap_metadata w fn = Except.error (Exc.exc (enrichedMsg f0 cause w.formatExc)))

/-- The property claim C3 asserts of the enumeration, stated from the
claim words: the collection feeding extraction is de-duplicated by
identity, is exactly the identity-level union of the runtime object list
and the secondary scan, and holds no None placeholder. -/
def c3ClaimHolds (w : World) : Prop :=
  ∀ objs0 objs, w.gcObjects = Except.ok objs0 → enumerateObjects w = Except.ok objs →
    List.Pairwise (fun a b => pyId a ≠ pyId b) objs ∧
    (∀ v, v ∈ objs ↔ (v ∈ objs0 ∨ v ∈ get_code_objects w)) ∧
    PyVal.none ∉ objs

theorem exc_bind_ok {α β : Type} (a : α) (f : α → Except Exc β) :
    (Except.ok a >>= f) = f a := rfl

theorem exc_bind_error {α β : Type} (e : Exc) (f : α → Except Exc β) :
    ((Except.error e : Except Exc α) >>= f) = Except.error e := rfl

theorem string_mk_data (s : String) : String.mk s.data = s := rfl

/-- C1: on the failing input — an instance of a float subclass holding a
non-finite value whose overridden str hook raises RuntimeError — the
value normalizer itself raises: the float branch catches the first raise
of str(value) but its handler calls str(value) again outside any try
block, re-raising.  Every other branch falls back to a fixed sentinel. -/
theorem c1_convert_value_raises :
    convert_valueE (PyVal.obj badFloatObj) = Except.error runtimeErr := rfl

/-- C4: for every text string given to the value normalizer, the
normalized output is exactly its first 1000 characters, so a string of at
most 1000 characters passes through unchanged and a longer one is cut to
length 1000. -/
theorem c4_string_truncation (s : String) :
    convert_valueE (PyVal.str s) = Except.ok (ConvOut.val (PyVal.str (strTake1000 s))) ∧
    (s.length ≤ 1000 →
      convert_valueE (PyVal.str s) = Except.ok (ConvOut.val (PyVal.str s))) ∧
    (1000 < s.length → (strTake1000 s).length = 1000) := by
  refine ⟨rfl, fun h => ?_, fun h => ?_⟩
  · have ht : strTake1000 s = s := by
      unfold strTake1000
      rw [List.take_of_length_le h, string_mk_data]
    rw [show convert_valueE (PyVal.str s) =
        Except.ok (ConvOut.val (PyVal.str (strTake1000 s))) from rfl, ht]
  · show (String.mk (s.data.take 1000)).length = 1000
    have : (String.mk (s.data.take 1000)).length = (s.data.take 1000).length := rfl
    rw [this, List.length_take]
    have h2 : s.data.length = s.length := rfl
    omega

/-- Witness for C4 at a concrete short string. -/
theorem c4_string_truncation_witness :
    convert_valueE (PyVal.str ("abc")) = Except.ok (ConvOut.val (PyVal.str ("abc"))) :=
  (c4_string_truncation ("abc")).2.1 (by decide)

/-- C5: a finite float passes through the normalizer unchanged and a
non-finite float is replaced by its string representation, so a
non-finite number is never emitted as a bare numeric value. -/
theorem c5_float_dispatch (f : PyFloat) :
    convert_valueE (PyVal.float f) =
      Except.ok (ConvOut.val (if f.isFinite then PyVal.float f else PyVal.str f.repr1)) := by
  cases f with
  | mk fin nz r => cases fin <;> rfl

/-- C10: each safe-reflection wrapper catches BaseException, so a raise of
any exception value whatsoever — the quantified e ranges over SystemExit
and KeyboardInterrupt as well — degrades to None, False or the empty
list respectively. -/
theorem c10_safe_wrappers (v : PyVal) (a : String) (t : TyTag) :
    (∀ e, rawGetattr v a = Except.error e → safe_getattr v a = PyVal.none) ∧
    (∀ e, rawIsinstance v t = Except.error e → safe_isinstance v t = false) ∧
    (∀ e, rawDir v = Except.error e → safe_dir v = []) := by
  refine ⟨fun e h => ?_, fun e h => ?_, fun e h => ?_⟩
  · unfold safe_getattr
    rw [h]
  · unfold safe_isinstance
    rw [h]
  · unfold safe_dir
    rw [h]

/-- Witness for C10 on an object all of whose reflective primitives raise
SystemExit. -/
theorem c10_safe_wrappers_witness :
    safe_getattr (PyVal.obj exRaisingObj) ("x") = PyVal.none ∧
    safe_isinstance (PyVal.obj exRaisingObj) TyTag.strT = false ∧
    safe_dir (PyVal.obj exRaisingObj) = [] := by
  obtain ⟨h1, h2, h3⟩ := c10_safe_wrappers (PyVal.obj exRaisingObj) ("x") TyTag.strT
  exact ⟨h1 sysExit rfl, h2 sysExit rfl, h3 sysExit rfl⟩

theorem attrLoop_eq_spec (obj : PyVal) (l : List String) (acc : List (String × ConvOut)) :
    attrLoop obj l acc =
      attrSpecLoop obj
        (l.filter
          (fun n => !(strStartsWith n ("__") && strEndsWith n ("__")) &&
            !(isNone (safe_getattr obj n)))) acc := by
  induction l generalizing acc with
  | nil => rfl
  | cons n ns ih =>
    cases h1 : (strStartsWith n ("__") && strEndsWith n ("__")) with
    | true =>
      have hf : List.filter
            (fun m => !(strStartsWith m ("__") && strEndsWith m ("__")) &&
              !(isNone (safe_getattr obj m))) (n :: ns) =
          List.filter
            (fun m => !(strStartsWith m ("__") && strEndsWith m ("__")) &&
              !(isNone (safe_getattr obj m))) ns := by
        simp [List.filter_cons, h1]
        intro hor
        rcases hor with hh | hh <;> simp [hh] at h1
      rw [hf]
      simp [attrLoop, h1, ih]
    | false =>
      cases h2 : isNone (safe_getattr obj n) with
      | true =>
        have hf : List.filter
              (fun m => !(strStartsWith m ("__") && strEndsWith m ("__")) &&
                !(isNone (safe_getattr obj m))) (n :: ns) =
            List.filter
              (fun m => !(strStartsWith m ("__") && strEndsWith m ("__")) &&
                !(isNone (safe_getattr obj m))) ns := by
          simp [List.filter_cons, h1, h2]
        rw [hf]
        simp [attrLoop, h1, h2, ih]
      | false =>
        have hf : List.filter
              (fun m => !(strStartsWith m ("__") && strEndsWith m ("__")) &&
                !(isNone (safe_getattr obj m))) (n :: ns) =
            n :: List.filter
              (fun m => !(strStartsWith m ("__") && strEndsWith m ("__")) &&
                !(isNone (safe_getattr obj m))) ns := by
          simp [List.filter_cons, h1, h2]
          intro hh
          rw [hh] at h1
          simpa using h1
        rw [hf]
        cases hc : convert_valueE (safe_getattr obj n) with
        | ok c => simp [attrLoop, attrSpecLoop, h1, h2, hc, ih]
        | error e => simp [attrLoop, attrSpecLoop, h1, h2, hc]

theorem attrsE_eq_spec (obj : PyVal) : attrsE obj = attrMappingSpec obj :=
  attrLoop_eq_spec obj (safe_dir obj) []

theorem get_object_metadataE_eq (w : World) (obj : PyVal) :
    get_object_metadataE w obj = Except.ok (recordOf w obj) := by
  unfold get_object_metadataE recordOf attrSection refSection
  by_cases hre : (rawReferents obj).isEmpty = true
  · rcases hs : rawSizeof obj with e1 | n <;> rcases ha : attrsE obj with e2 | l <;>
      simp [pyTry, hs, ha, hre, exc_bind_ok, exc_bind_error]
  · rcases hs : rawSizeof obj with e1 | n <;> rcases ha : attrsE obj with e2 | l <;>
      rcases hm : convertList (rawReferents obj) with e3 | cs <;>
      simp [pyTry, hs, ha, hre, hm, exc_bind_ok, exc_bind_error]

/-- The extractor never raises: for every world and object it returns a
record, whatever the oracles raise. -/
theorem get_object_metadata_total (w : World) (obj : PyVal) :
    ∃ r, get_object_metadataE w obj = Except.ok r :=
  ⟨recordOf w obj, get_object_metadataE_eq w obj⟩

/-- C6: the attr mapping of every extracted record is exactly the mapping
the specification describes — all attribute names, minus the names that
start and end with a double underscore, safely resolved, null results
dropped, every kept value normalized — and the attr key is absent when
that mapping is empty (or when a normalization raised, in which case the
source comprehension is abandoned). -/
theorem c6_attr_mapping (w : World) (obj : PyVal) (r : ObjectRecord)
    (h : get_object_metadataE w obj = Except.ok r) :
    r.attr = (match attrMappingSpec obj with
      | .ok l => if l.isEmpty then Option.none else some l
      | .error _ => Option.none) := by
  have he := get_object_metadataE_eq w obj
  rw [h] at he
  have hr : r = recordOf w obj := Except.ok.inj he
  rw [hr]
  show (match attrsE obj with
      | .ok l => if l.isEmpty then Option.none else some l
      | .error _ => Option.none) = _
  rw [attrsE_eq_spec]

/-- Witness for C6 on a plain instance with two attributes. -/
theorem c6_attr_mapping_witness :
    (recordOf wSimple (PyVal.obj exPlainObj)).attr =
      (match attrMappingSpec (PyVal.obj exPlainObj) with
        | .ok l => if l.isEmpty then Option.none else some l
        | .error _ => Option.none) :=
  c6_attr_mapping wSimple (PyVal.obj exPlainObj) (recordOf wSimple (PyVal.obj exPlainObj))
    (get_object_metadataE_eq wSimple (PyVal.obj exPlainObj))

/-- C8: the size field of every extracted record is present and holds the
runtime estimate when sys.getsizeof succeeds and 0 when it raises. -/
theorem c8_size_field (w : World) (obj : PyVal) (r : ObjectRecord)
    (h : get_object_metadataE w obj = Except.ok r) :
    (∀ n, rawSizeof obj = Except.ok n → r.size = n) ∧
    (∀ e, rawSizeof obj = Except.error e → r.size = 0) := by
  have he := get_object_metadataE_eq w obj
  rw [h] at he
  have hr : r = recordOf w obj := Except.ok.inj he
  subst hr
  constructor
  · intro n hn
    show (match rawSizeof obj with | .ok n => n | .error _ => 0) = n
    rw [hn]
  · intro e hn
    show (match rawSizeof obj with | .ok n => n | .error _ => 0) = 0
    rw [hn]

/-- Witness for C8 on an object whose sizeof hook raises. -/
theorem c8_size_field_witness :
    (recordOf wSimple (PyVal.obj exSizeRaisingObj)).size = 0 :=
  (c8_size_field wSimple (PyVal.obj exSizeRaisingObj)
      (recordOf wSimple (PyVal.obj exSizeRaisingObj))
      (get_object_metadataE_eq wSimple (PyVal.obj exSizeRaisingObj))).2
    (Exc.exc ("TypeError")) rfl

/-- C2 fails as stated: in the world whose gc list holds an object of a
metaclass with a SystemExit-raising str hook, the unprotected
str(type(obj)) of the metadata loop raises an exception that is not an
instance of Exception, the top-level except Exception clause does not
catch it, and the entry point propagates the raw SystemExit, neither
returning normally nor raising the enriched error. -/
theorem c2_counterexample : ¬ c2ClaimHolds wC2 ("dump") := by
  have hc : collect_heap_metadata wC2 ("dump") =
      Except.error (Exc.baseOnly ("SystemExit")) := rfl
  intro h
  rcases h with ⟨s, hs⟩ | ⟨f0, cause, he⟩
  · rw [hc] at hs
    exact Except.noConfusion hs
  · rw [hc] at he
    injection he with h2
    exact Exc.noConfusion h2

/-- C2 as amended: an Exception-level failure of the body that was not
swallowed internally yields exactly one enriched error whose message
carries the original cause and the captured traceback; a result is only
returned normally when the body succeeded; and a BaseException-level
failure (SystemExit, KeyboardInterrupt) propagates unchanged, because the
top-level handler catches only Exception. -/
theorem c2_enriched_on_exception (w : World) (fn : String) :
    (∀ s, collect_heap_metadata w fn = Except.ok s → collectBody w fn = Except.ok s) ∧
    (∀ m f0, collectBody w fn = Except.error (Exc.exc m, f0) →
      collect_heap_metadata w fn = Except.error (Exc.exc (enrichedMsg f0 m w.formatExc))) ∧
    (∀ m f0, collectBody w fn = Except.error (Exc.baseOnly m, f0) →
      collect_heap_metadata w fn = Except.error (Exc.baseOnly m)) := by
  refine ⟨fun s h => ?_, fun m f0 h => ?_, fun m f0 h => ?_⟩
  · cases hb : collectBody w fn with
    | ok s2 =>
      simp only [collect_heap_metadata, hb] at h
      rw [Except.ok.inj h]
    | error p =>
      unfold collect_heap_metadata at h
      rw [hb] at h
      rcases p with ⟨e, f0⟩
      cases e <;> exact Except.noConfusion h
  · unfold collect_heap_metadata
    rw [h]
  · unfold collect_heap_metadata
    rw [h]

/-- Witness for C2 as amended: an OSError while opening the output file
surfaces as the single enriched Exception. -/
theorem c2_enriched_witness :
    collect_heap_metadata wOsError ("dump") =
      Except.error (Exc.exc (enrichedMsg ("dump") ("OSError") ("tb"))) :=
  (c2_enriched_on_exception wOsError ("dump")).2.1 ("OSError") ("dump") rfl

theorem setAdd_pairwise (s : List PyVal) (v : PyVal)
    (h : List.Pairwise (fun a b => pyEq a b = false) s) :
    List.Pairwise (fun a b => pyEq a b = false) (setAdd s v) := by
  unfold setAdd
  split
  · exact h
  next hany =>
    rw [List.pairwise_append]
    refine ⟨h, List.pairwise_singleton _ _, ?_⟩
    intro a ha b hb
    rw [List.mem_singleton] at hb
    subst hb
    cases hpe : pyEq a b with
    | false => rfl
    | true => exact absurd (List.any_eq_true.mpr ⟨a, ha, hpe⟩) (by simpa using hany)

theorem setAddAll_pairwise (l : List PyVal) : ∀ s,
    List.Pairwise (fun a b => pyEq a b = false) s →
    List.Pairwise (fun a b => pyEq a b = false) (setAddAll s l) := by
  induction l with
  | nil => exact fun s h => h
  | cons v vs ih =>
    intro s h
    have : setAddAll s (v :: vs) = setAddAll (setAdd s v) vs := rfl
    rw [this]
    exact ih _ (setAdd_pairwise s v h)

theorem modulesFold_pairwise (ms : List PyVal) : ∀ s,
    List.Pairwise (fun a b => pyEq a b = false) s →
    List.Pairwise (fun a b => pyEq a b = false)
      (ms.foldl (fun acc m => if isNone m then acc
        else setAddAll (setAddAll acc (moduleFuncCodes m)) (classMethodCodes m)) s) := by
  induction ms with
  | nil => exact fun s h => h
  | cons m ms ih =>
    intro s h
    rw [List.foldl_cons]
    cases hm : isNone m with
    | true =>
      simp only [hm, if_true]
      exact ih s h
    | false =>
      simp only [hm, Bool.false_eq_true, if_false]
      exact ih _ (setAddAll_pairwise (classMethodCodes m) _
        (setAddAll_pairwise (moduleFuncCodes m) s h))

theorem get_code_objects_pairwise (w : World) :
    List.Pairwise (fun a b => pyEq a b = false) (get_code_objects w) := by
  unfold get_code_objects
  exact List.Pairwise.sublist (List.filter_sublist _)
    (modulesFold_pairwise w.modules [] List.Pairwise.nil)

theorem get_code_objects_no_none (w : World) : PyVal.none ∉ get_code_objects w := by
  unfold get_code_objects
  intro hmem
  have hpred := (List.mem_filter.mp hmem).2
  simp [pyEq] at hpred

/-- C3 fails as stated: in the world where the code object of the module
function already sits in the gc object list, the collection fed to
extraction holds that code object twice, because objects.extend performs
no de-duplication against gc.get_objects(). -/
theorem c3_counterexample : ¬ c3ClaimHolds w3 := by
  intro h
  have h2 := h [exCodeVal] [exCodeVal, exCodeVal] rfl rfl
  have hp := h2.1
  rw [List.pairwise_cons] at hp
  exact hp.1 exCodeVal (List.mem_singleton_self _) rfl

/-- C3 as amended: the collection fed to extraction is the runtime object
list concatenated with the secondary scan; the scan itself is
de-duplicated and holds no None placeholder, but an object present in
both parts occurs twice in the concatenation. -/
theorem c3_enumeration (w : World) (objs0 : List PyVal)
    (h : w.gcObjects = Except.ok objs0) :
    enumerateObjects w = Except.ok (objs0 ++ get_code_objects w) ∧
    PyVal.none ∉ get_code_objects w ∧
    List.Pairwise (fun a b => pyEq a b = false) (get_code_objects w) := by
  refine ⟨?_, get_code_objects_no_none w, get_code_objects_pairwise w⟩
  unfold enumerateObjects
  rw [h]
  rfl

/-- Witness for C3 as amended, in the duplication world. -/
theorem c3_enumeration_witness :
    enumerateObjects w3 = Except.ok ([exCodeVal] ++ get_code_objects w3) ∧
    PyVal.none ∉ get_code_objects w3 ∧
    List.Pairwise (fun a b => pyEq a b = false) (get_code_objects w3) :=
  c3_enumeration w3 [exCodeVal] rfl

/-- C7 fails as stated: on a concrete code object without instance
attributes, the extractor does not synthesize a three-field record in the
attr position; it performs the general reflective enumeration, yielding
every non-dunder name dir reports on a code object. -/
theorem c7_counterexample :
    Except.map attrKeys (get_object_metadataE wSimple (PyVal.obj exampleCodeObject)) =
      Except.ok (some ["co_argcount", "co_code", "co_consts", "co_filename",
        "co_firstlineno", "co_flags", "co_name", "co_names", "co_nlocals",
        "co_stacksize", "co_varnames", "replace"]) ∧
    (some ["co_argcount", "co_code", "co_consts", "co_filename",
        "co_firstlineno", "co_flags", "co_name", "co_names", "co_nlocals",
        "co_stacksize", "co_varnames", "replace"] : Option (List String)) ≠
      some threeFieldKeys :=
  ⟨by rfl, by decide⟩

/-- C7 as amended: the synthesized record of defining name, defining file
and starting line exists, but for function and method objects and under
the src key — built from the co_name, co_filename and co_firstlineno of
the resolved code attribute, dropping entries whose lookup failed — while
code objects themselves go through the general attribute enumeration like
every other object. -/
theorem c7_src_for_functions (w : World) (obj : PyVal)
    (h : safe_isinstance obj TyTag.funcOrMethod = true) :
    get_src_info w obj = srcFilter
      [("co_name", safe_getattr (safe_getattr obj ("__code__")) ("co_name")),
       ("co_filename", safe_getattr (safe_getattr obj ("__code__")) ("co_filename")),
       ("co_lineno", safe_getattr (safe_getattr obj ("__code__")) ("co_firstlineno"))] := by
  simp [get_src_info, get_src_infoE, h]

/-- Witness for C7 as amended on a concrete function object. -/
theorem c7_src_for_functions_witness :
    get_src_info wSimple (PyVal.obj exWitFuncObj) = srcFilter
      [("co_name", safe_getattr (safe_getattr (PyVal.obj exWitFuncObj) ("__code__")) ("co_name")),
       ("co_filename",
         safe_getattr (safe_getattr (PyVal.obj exWitFuncObj) ("__code__")) ("co_filename")),
       ("co_lineno",
         safe_getattr (safe_getattr (PyVal.obj exWitFuncObj) ("__code__")) ("co_firstlineno"))] :=
  c7_src_for_functions wSimple (PyVal.obj exWitFuncObj) rfl

theorem hexDigitChar_lt (n : Nat) : (hexDigitChar n).toNat < 128 := by
  unfold hexDigitChar
  split <;> decide

theorem jsonEscapeChar_nonAscii (c : Char) :
    (jsonEscapeChar c).filter (fun x => 127 < x.toNat) =
      if 127 < c.toNat then [c] else [] := by
  unfold jsonEscapeChar
  by_cases h1 : c = '"'
  · subst h1; decide
  · rw [if_neg h1]
    by_cases h2 : c = '\\'
    · subst h2; decide
    · rw [if_neg h2]
      by_cases h3 : c = '\n'
      · subst h3; decide
      · rw [if_neg h3]
        by_cases h4 : c = '\t'
        · subst h4; decide
        · rw [if_neg h4]
          by_cases h5 : c = '\r'
          · subst h5; decide
          · rw [if_neg h5]
            by_cases h6 : c.toNat < 32
            · rw [if_pos h6, if_neg (show ¬ 127 < c.toNat by omega)]
              rw [List.filter_eq_nil_iff]
              intro a ha
              fin_cases ha
              · decide
              · decide
              · decide
              · decide
              · have := hexDigitChar_lt (c.toNat / 16)
                simp
                omega
              · have := hexDigitChar_lt (c.toNat % 16)
                simp
                omega
            · rw [if_neg h6]
              by_cases h7 : 127 < c.toNat
              · rw [if_pos h7]
                simp [List.filter_cons, h7]
              · rw [if_neg h7]
                simp [List.filter_cons, h7]

theorem jsonEscapeList_nonAscii (l : List Char) :
    (l.foldr (fun c acc => jsonEscapeChar c ++ acc) []).filter (fun c => 127 < c.toNat) =
      l.filter (fun c => 127 < c.toNat) := by
  induction l with
  | nil => rfl
  | cons c cs ih =>
    rw [List.foldr_cons, List.filter_append, ih, jsonEscapeChar_nonAscii, List.filter_cons]
    by_cases h : 127 < c.toNat <;> simp [h]

/-- The serialization with ensure_ascii set to False leaves every
non-ASCII character of a string in place: filtering the escaped text for
characters above 127 gives back exactly those of the original. -/
theorem jsonEscape_nonAscii (s : String) :
    (jsonEscape s).data.filter (fun c => 127 < c.toNat) =
      s.data.filter (fun c => 127 < c.toNat) :=
  jsonEscapeList_nonAscii s.data

/-- C9: when the file-system operations succeed, the writer creates the
parent directory exactly when the path names one, appends the .json
extension exactly when the supplied name does not already end with it,
writes the whole serialized snapshot (with non-ASCII characters
preserved, per the last conjunct) to the final path, and returns that
final path. -/
theorem c9_save_heap_dump (w : World) (fn : String) (snap : Snapshot) (content : String)
    (hdir : osPathDirname fn = "" ∨ w.makedirs (osPathDirname fn) = Except.ok ())
    (hopen : w.openW (withJsonExt fn) = Except.ok ())
    (hser : jsonOfSnapshot snap = Except.ok content) :
    save_heap_dump w fn snap = Except.ok
      ⟨(if osPathDirname fn = "" then Option.none else some (osPathDirname fn)),
        (withJsonExt fn, content), withJsonExt fn⟩ ∧
    (strEndsWith fn (".json") = false → withJsonExt fn = fn ++ ".json") ∧
    (strEndsWith fn (".json") = true → withJsonExt fn = fn) ∧
    (∀ s : String, (jsonEscape s).data.filter (fun c => 127 < c.toNat) =
      s.data.filter (fun c => 127 < c.toNat)) := by
  refine ⟨?_, fun h => by simp [withJsonExt, h], fun h => by simp [withJsonExt, h],
    jsonEscape_nonAscii⟩
  by_cases h0 : osPathDirname fn = ""
  · simp [save_heap_dump, h0, hopen, hser, exc_bind_ok]
  · rcases hdir with h | h
    · exact absurd h h0
    · simp [save_heap_dump, h0, h, hopen, hser, exc_bind_ok]

/-- Witness for C9: destination out/dump yields the created directory out
and the written file out/dump.json. -/
theorem c9_save_heap_dump_witness :
    save_heap_dump wSimple ("out/dump") ([] : Snapshot) = Except.ok
      ⟨(if osPathDirname ("out/dump") = "" then Option.none
          else some (osPathDirname ("out/dump"))),
        (withJsonExt ("out/dump"), jsonObject []), withJsonExt ("out/dump")⟩ :=
  (c9_save_heap_dump wSimple ("out/dump") ([] : Snapshot) (jsonObject [])
    (Or.inr rfl) rfl rfl).1

end PyHeapDumper
